import Mathlib

/-!
Verification of the Fortnite-stats-to-InfluxDB synchronizer
(`fortnite_to_influx.py`) against its natural-language specification.

Modelling conventions (shallow embedding of the Python source):
* JSON values are the inductive type `Json`; Python dicts are association
  lists with insertion-ordered, last-write-wins update semantics (`dset`),
  matching `dict.__setitem__` / `dict.update`.
* `dict.get(k)` returning Python `None` for a missing key is `Option.none`;
  a stored JSON `null` value is `Json.null` (the code's explicit membership
  checks make this distinction immaterial where both occur).
* JSON numbers are rationals: the code converts both `int` and `float` to
  `float` before writing and no verified claim depends on the distinction.
* Network and store effects are passed in as explicit environment data
  (what each HTTP attempt returned, what the store query returned, whether
  the store write raises); an exception raised by a store write is
  `Except.error`.
-/

inductive Json where
  | null : Json
  | bool : Bool → Json
  | num : Rat → Json
  | str : String → Json
  | arr : List Json → Json
  | obj : List (String × Json) → Json

/-- Python truthiness (`if value:`) for modelled JSON values. -/
def pyTruthy : Json → Bool
  | Json.null => false
  | Json.bool b => b
  | Json.num q => !(q == 0)
  | Json.str s => !(s == "")
  | Json.arr l => !l.isEmpty
  | Json.obj o => !o.isEmpty

/-- Python `str.upper()` (ASCII case mapping, as exercised by the
sentinel comparison). -/
def pyUpper (s : String) : String :=
  String.mk (s.data.map Char.toUpper)

/-- Python `str(...)` on modelled JSON values.  Only the string case is
relied on by any theorem; the other renderings are stand-ins for Python's
textual forms (none of which upper-cases to the sentinel "UNKNOWN"). -/
def pyStr : Json → String
  | Json.str s => s
  | Json.null => "None"
  | Json.bool true => "True"
  | Json.bool false => "False"
  | Json.num q => toString q
  | Json.arr _ => "[list]"
  | Json.obj _ => "[dict]"

mutual

/-- Structural equality of JSON values, mirroring Python `==` on the scalar
and list values that occur in flat records.  (Python's cross-type numeric
equalities such as `True == 1` are not modelled; no claim depends on them.) -/
def jsonBEq : Json → Json → Bool
  | Json.null, Json.null => true
  | Json.bool a, Json.bool b => a == b
  | Json.num a, Json.num b => a == b
  | Json.str a, Json.str b => a == b
  | Json.arr a, Json.arr b => jsonListBEq a b
  | Json.obj a, Json.obj b => jsonObjBEq a b
  | _, _ => false

def jsonListBEq : List Json → List Json → Bool
  | [], [] => true
  | a :: as, b :: bs => jsonBEq a b && jsonListBEq as bs
  | _, _ => false

def jsonObjBEq : List (String × Json) → List (String × Json) → Bool
  | [], [] => true
  | (ka, va) :: as, (kb, vb) :: bs => ka == kb && jsonBEq va vb && jsonObjBEq as bs
  | _, _ => false

end

/-- `d[k]` lookup / `d.get(k)`: first binding of the key, `none` if absent. -/
def dget (d : List (String × Json)) (k : String) : Option Json :=
  d.lookup k

/-- `k in d` membership test on a modelled dict. -/
def dmem (d : List (String × Json)) (k : String) : Bool :=
  (dget d k).isSome

/-- `d.keys()`. -/
def dkeys (d : List (String × Json)) : List String :=
  d.map Prod.fst

/-- `d.get(k, default)`. -/
def getD (d : List (String × Json)) (k : String) (v : Json) : Json :=
  (dget d k).getD v

/-- `d[k] = v`: replace the binding in place when the key exists, else
append it (Python dicts preserve insertion order). -/
def dset (d : List (String × Json)) (k : String) (v : Json) : List (String × Json) :=
  if dmem d k then d.map (fun p => if p.1 == k then (k, v) else p)
  else d ++ [(k, v)]

/-- `d.update(e)`: set each binding of `e` into `d` in order. -/
def dupdate (d e : List (String × Json)) : List (String × Json) :=
  e.foldl (fun acc p => dset acc p.1 p.2) d

mutual

/-- One iteration of the `for key, value in data.items()` loop of
`flatten_json`: a nested dict value is flattened with the extended key
path and merged into `result`, a list value is walked element-wise, and
any other value becomes a leaf under `newKey`. -/
def flattenEntry : Json → String → List (String × Json) → List (String × Json)
  | Json.obj o, newKey, result => dupdate result (flattenObj o (newKey ++ "_") [])
  | Json.arr items, newKey, result => flattenItems items newKey 0 result
  | v, newKey, result => dset result newKey v

/-- The `for i, item in enumerate(value)` loop of `flatten_json`: a dict
element recurses with an indexed key path; any other element — including a
nested list — is assigned unchanged under its indexed key. -/
def flattenItems : List Json → String → Nat → List (String × Json) → List (String × Json)
  | [], _, _, result => result
  | item :: rest, newKey, i, result =>
    flattenItems rest newKey (i + 1)
      (match item with
       | Json.obj o => dupdate result (flattenObj o (newKey ++ "_" ++ toString i ++ "_") [])
       | v => dset result (newKey ++ "_" ++ toString i) v)

/-- The body of `flatten_json(data, prefix)`: fold the entry loop over
`data`, threading the `result` dict. -/
def flattenObj : List (String × Json) → String → List (String × Json) → List (String × Json)
  | [], _, result => result
  | (key, value) :: rest, pfx, result =>
    flattenObj rest pfx (flattenEntry value (if !(pfx == "") then pfx ++ key else key) result)

end

/-- `flatten_json(data, prefix="")` from the source: flattens a nested JSON
object into a single-level dict, joining nested object keys with `_` and
indexing list elements into the key path.  (`flatten_json o p = flattenObj
o p []`; the recursive calls inside `flattenEntry`/`flattenItems` inline
this wrapper.) -/
def flatten_json (data : List (String × Json)) (pfx : String) : List (String × Json) :=
  flattenObj data pfx []

/-- A scalar JSON value in the sense of the spec: string, number, boolean
or null (not an object and not a sequence). -/
def isScalar : Json → Bool
  | Json.arr _ => false
  | Json.obj _ => false
  | _ => true

/-- Equality of `dict.get` results (`new_val != old_val` in the source,
where a missing key yields Python `None`). -/
def optJsonBEq : Option Json → Option Json → Bool
  | none, none => true
  | some a, some b => jsonBEq a b
  | _, _ => false

/-- `has_data_changed(new_data, old_data)` from the source: `None` stored
data always counts as changed; otherwise iterate the union of the key sets
and report a change when a key is present on exactly one side or when the
two values differ. -/
def has_data_changed (new_data : List (String × Json)) : Option (List (String × Json)) → Bool
  | none => true
  | some old_data =>
    let all_keys := (dkeys new_data ++ dkeys old_data).dedup
    all_keys.any fun key =>
      (dmem new_data key != dmem old_data key) ||
      !(optJsonBEq (dget new_data key) (dget old_data key))

/-- `stats.get("error", "").upper() == "UNKNOWN"` — the first disjunct of
`is_api_error`.  Python raises `AttributeError` when the `error` value is
not a string; such inputs are modelled as a non-match (no verified claim
exercises them). -/
def errorFieldUnknown (stats : List (String × Json)) : Bool :=
  match getD stats "error" (Json.str "") with
  | Json.str s => pyUpper s == "UNKNOWN"
  | _ => false

/-- `is_api_error(stats)` from the source: the flat record carries the
sentinel either as a direct `error` key or in tagged form
(`_field == "error"` with `_value` reading "UNKNOWN" case-insensitively). -/
def is_api_error (stats : List (String × Json)) : Bool :=
  errorFieldUnknown stats ||
  ((match dget stats "_field" with
    | some (Json.str s) => s == "error"
    | _ => false) &&
   pyUpper (pyStr (getD stats "_value" (Json.str ""))) == "UNKNOWN")

/-- Shape 1 of `get_account_id`: `account_id` at the root of the response. -/
def accountShapeRoot (data : List (String × Json)) : Option Json :=
  dget data "account_id"

/-- Shape 2 of `get_account_id`: a truthy `result` object carrying
`account_id`. -/
def accountShapeResult (data : List (String × Json)) : Option Json :=
  match dget data "result" with
  | some rv =>
    if pyTruthy rv then
      match rv with
      | Json.obj ro => dget ro "account_id"
      | _ => none
    else none
  | none => none

/-- Shape 3 of `get_account_id`: an `account` object carrying `id`. -/
def accountShapeAccount (data : List (String × Json)) : Option Json :=
  match dget data "account" with
  | some (Json.obj ao) => dget ao "id"
  | _ => none

/-- `FortniteAPI.get_account_id` on a lookup response, modelled by the HTTP
status and the parsed JSON object: on 200, try `account_id` at the root,
then `account_id` inside a truthy `result` dict, then `id` inside an
`account` dict, returning at the first hit; any other status yields `None`. -/
def get_account_id (status : Nat) (data : List (String × Json)) : Option Json :=
  if status == 200 then
    match dget data "account_id" with
    | some v => some v
    | none =>
      match (match dget data "result" with
             | some rv =>
               if pyTruthy rv then
                 match rv with
                 | Json.obj ro => dget ro "account_id"
                 | _ => none
               else none
             | none => none) with
      | some v => some v
      | none =>
        match dget data "account" with
        | some (Json.obj ao) => dget ao "id"
        | _ => none
  else none

/-- What one HTTP attempt of `FortniteAPI.get_stats` produced.  `ok` is a
fully parsed 200 response; a 200 whose body fails to parse raises and is
an `exc`. -/
inductive AttemptOutcome where
  | ok : List (String × Json) → AttemptOutcome
  | rateLimited : Option Nat → AttemptOutcome
  | httpError : Nat → AttemptOutcome
  | timeout : AttemptOutcome
  | exc : AttemptOutcome

/-- Observable behaviour of one `get_stats` call: the returned payload (or
`None`), how many attempts were issued, and every `time.sleep` duration in
order. -/
structure FetchTrace where
  result : Option (List (String × Json))
  attempts : Nat
  sleeps : List Nat

/-- The `for attempt in range(max_retries)` loop of `get_stats`.  `fuel` is
the number of loop iterations left, `attempt` the current index.  A 200
returns immediately; a 429 sleeps `Retry-After` (default 60); then every
non-returning iteration except the last also sleeps the exponential
backoff `2 ** attempt`. -/
def get_stats_go (outcomes : Nat → AttemptOutcome) (max_retries : Nat) :
    Nat → Nat → List Nat → FetchTrace
  | 0, attempt, sleeps => ⟨none, attempt, sleeps⟩
  | fuel + 1, attempt, sleeps =>
    match outcomes attempt with
    | AttemptOutcome.ok payload => ⟨some payload, attempt + 1, sleeps⟩
    | o =>
      let sleeps := match o with
        | AttemptOutcome.rateLimited ra => sleeps ++ [ra.getD 60]
        | _ => sleeps
      let sleeps := if attempt < max_retries - 1 then sleeps ++ [2 ^ attempt] else sleeps
      get_stats_go outcomes max_retries fuel (attempt + 1) sleeps

/-- `FortniteAPI.get_stats(account_id, max_retries)`, with the network's
response to each attempt supplied by `outcomes`. -/
def get_stats (outcomes : Nat → AttemptOutcome) (max_retries : Nat) : FetchTrace :=
  get_stats_go outcomes max_retries max_retries 0 []

/-- `InfluxDBStore._query_to_dict`: a raised query error is caught and
becomes `None`; otherwise fold the result rows into a dict, keeping only
rows with a truthy field name and a non-`None` value, and map an empty
dict to `None`. -/
def query_to_dict (queryResult : Except Unit (List (Option String × Option Json))) :
    Option (List (String × Json)) :=
  match queryResult with
  | Except.error _ => none
  | Except.ok rows =>
    let result := rows.foldl
      (fun acc r =>
        match r with
        | (some f, some v) => if !(f == "") then dset acc f v else acc
        | _ => acc) []
    if result.isEmpty then none else some result

/-- An InfluxDB field value as written by `write_player_stats`. -/
inductive FieldValue where
  | i : Int → FieldValue
  | f : Rat → FieldValue
  | s : String → FieldValue

/-- The field-building loop of `InfluxDBStore.write_player_stats`: bools
are written as ints, ints/floats as floats, strings as themselves, and
every other value is skipped. -/
def point_fields : List (String × Json) → List (String × FieldValue)
  | [] => []
  | (key, value) :: rest =>
    match value with
    | Json.bool b => (key, FieldValue.i (if b then 1 else 0)) :: point_fields rest
    | Json.num q => (key, FieldValue.f q) :: point_fields rest
    | Json.str s => (key, FieldValue.s s) :: point_fields rest
    | _ => point_fields rest

/-- The per-field conversion of `write_player_stats` stated as the spec
reads it: a single optional conversion applied to each field. -/
def fieldConvSpec : String × Json → Option (String × FieldValue)
  | (key, Json.bool b) => some (key, FieldValue.i (if b then 1 else 0))
  | (key, Json.num q) => some (key, FieldValue.f q)
  | (key, Json.str s) => some (key, FieldValue.s s)
  | _ => none

/-- Terminal state of `FortniteSync._sync_player` for one player (the
early `return`s and the two final branches of the method). -/
inductive SyncOutcome where
  | noAccountId : SyncOutcome
  | statsFailed : SyncOutcome
  | apiError : SyncOutcome
  | unchanged : SyncOutcome
  | written : List (String × Json) → SyncOutcome

/-- Terminal state of one iteration of `FortniteSync.sync_seasons`. -/
inductive SeasonOutcome where
  | skippedNoId : SeasonOutcome
  | unchanged : SeasonOutcome
  | written : List (String × Json) → SeasonOutcome

/-- Environment of one `_sync_player` call: what the store and the API
returned for this player, and whether the store write would raise. -/
structure PlayerEnv where
  player : String
  storedAccountId : Option String
  apiAccountId : Option String
  statsResult : Option (List (String × Json))
  stored : Option (List (String × Json))
  writeFails : Bool

/-- Python truthiness of an optional string (`if account_id:`). -/
def optStrTruthy : Option String → Bool
  | none => false
  | some s => !(s == "")

/-- The account-resolution prelude of `_sync_player`: prefer a truthy
stored account id, fall back to the lookup API, `None` when both fail
(`if not account_id: return`). -/
def resolve_account (storedAcc apiAcc : Option String) : Option String :=
  if optStrTruthy storedAcc then storedAcc
  else if optStrTruthy apiAcc then apiAcc
  else none

/-- The metadata-then-flatten step of `_sync_player`:
`stats['player'] = player; stats['account_id'] = account_id;
flat_stats = flatten_json(stats)`. -/
def player_flat (player account_id : String) (stats : List (String × Json)) :
    List (String × Json) :=
  flatten_json (dset (dset stats "player" (Json.str player)) "account_id" (Json.str account_id)) ""

/-- The change-detection step of `_sync_player`: with no truthy stored
record, write; otherwise restrict the stored record to the keys of the new
flat record and compare only those. -/
def player_write_needed (flat_stats : List (String × Json)) :
    Option (List (String × Json)) → Bool
  | none => true
  | some stored =>
    if stored.isEmpty then true
    else has_data_changed flat_stats (some (stored.filter (fun p => dmem flat_stats p.1)))

/-- `FortniteSync._sync_player`: resolve the account id, fetch stats
(failing on `None` or an empty dict), add metadata, flatten, reject the
API error sentinel, then write when the filtered comparison reports a
change.  A raised store-write error is `Except.error`. -/
def sync_player (e : PlayerEnv) : Except Unit SyncOutcome :=
  match resolve_account e.storedAccountId e.apiAccountId with
  | none => Except.ok SyncOutcome.noAccountId
  | some account_id =>
    match e.statsResult with
    | none => Except.ok SyncOutcome.statsFailed
    | some stats =>
      if stats.isEmpty then Except.ok SyncOutcome.statsFailed
      else
        let flat_stats := player_flat e.player account_id stats
        if is_api_error flat_stats then Except.ok SyncOutcome.apiError
        else if player_write_needed flat_stats e.stored then
          (if e.writeFails then Except.error () else Except.ok (SyncOutcome.written flat_stats))
        else Except.ok SyncOutcome.unchanged

/-- Environment of one season iteration of `sync_seasons`: the season
object from the API, the stored snapshot, and whether the store write
would raise. -/
structure SeasonEnv where
  season : List (String × Json)
  stored : Option (List (String × Json))
  writeFails : Bool

/-- The `season_data` dict built by `sync_seasons`: `start`/`end` taken
from truthy `startDate`/`endDate` fields of the season object. -/
def season_fields (season : List (String × Json)) : List (String × Json) :=
  let d0 : List (String × Json) := []
  let d1 := match dget season "startDate" with
    | some v => if pyTruthy v then dset d0 "start" v else d0
    | none => d0
  match dget season "endDate" with
  | some v => if pyTruthy v then dset d1 "end" v else d1
  | none => d1

/-- One iteration of the `for season in seasons` loop of `sync_seasons`:
skip on a falsy season id, else compare the freshly built `season_data`
against the raw stored snapshot (no key filtering) and write on change. -/
def sync_season (e : SeasonEnv) : Except Unit SeasonOutcome :=
  match dget e.season "season" with
  | none => Except.ok SeasonOutcome.skippedNoId
  | some sid =>
    if pyTruthy sid then
      if has_data_changed (season_fields e.season) e.stored then
        (if e.writeFails then Except.error () else
          Except.ok (SeasonOutcome.written (season_fields e.season)))
      else Except.ok SeasonOutcome.unchanged
    else Except.ok SeasonOutcome.skippedNoId

/-- `FortniteSync.sync_seasons`: iterate the season list; an uncaught
store-write exception aborts the loop (second component `true`), dropping
the remaining seasons; otherwise collect each season's outcome. -/
def sync_seasons : List SeasonEnv → List SeasonOutcome × Bool
  | [] => ([], false)
  | e :: rest =>
    match sync_season e with
    | Except.error _ => ([], true)
    | Except.ok o =>
      let r := sync_seasons rest
      (o :: r.1, r.2)

/-- `FortniteSync.sync_players`: iterate the player list; an uncaught
store-write exception aborts the loop (second component `true`), dropping
the remaining players; otherwise collect each player's outcome. -/
def sync_players : List PlayerEnv → List SyncOutcome × Bool
  | [] => ([], false)
  | e :: rest =>
    match sync_player e with
    | Except.error _ => ([], true)
    | Except.ok o =>
      let r := sync_players rest
      (o :: r.1, r.2)

/-- Observable result of `FortniteSync.run`: outcomes of the entities that
were fully processed, and whether an exception aborted the run. -/
structure RunResult where
  seasonOutcomes : List SeasonOutcome
  playerOutcomes : List SyncOutcome
  aborted : Bool

/-- `FortniteSync.run`: seasons first, then players; an exception raised
in either phase propagates (past the `finally` that closes the store) and
ends the run, so a season-phase abort skips the player phase entirely. -/
def run (seasons : List SeasonEnv) (players : List PlayerEnv) : RunResult :=
  let s := sync_seasons seasons
  if s.2 then ⟨s.1, [], true⟩
  else
    let p := sync_players players
    ⟨s.1, p.1, p.2⟩

mutual

/-- No sequence anywhere inside this value directly contains another
sequence (the one shape whose elements `flatten_json` leaves unflattened). -/
def jsonNoArrInArr : Json → Bool
  | Json.obj o => objNoArrInArr o
  | Json.arr l => listNoArrInArr l
  | _ => true

/-- `jsonNoArrInArr` over the elements of a sequence: no element is itself
a sequence, and the condition holds recursively below. -/
def listNoArrInArr : List Json → Bool
  | [] => true
  | item :: rest =>
    (match item with
     | Json.arr _ => false
     | v => jsonNoArrInArr v) && listNoArrInArr rest

/-- `jsonNoArrInArr` over the values of an object. -/
def objNoArrInArr : List (String × Json) → Bool
  | [] => true
  | (_, v) :: rest => jsonNoArrInArr v && objNoArrInArr rest

end

/-- Every binding of `dset d k v` is a binding of `d` or the pair `(k, v)`. -/
theorem mem_dset {d : List (String × Json)} {k : String} {v : Json}
    {p : String × Json} (h : p ∈ dset d k v) : p ∈ d ∨ p = (k, v) := by
  unfold dset at h
  by_cases hm : dmem d k = true
  · rw [if_pos hm] at h
    rcases List.mem_map.mp h with ⟨q, hq, he⟩
    by_cases hk : (q.1 == k) = true
    · rw [if_pos hk] at he
      exact Or.inr he.symm
    · rw [if_neg hk] at he
      exact Or.inl (he ▸ hq)
  · rw [if_neg hm] at h
    rcases List.mem_append.mp h with h' | h'
    · exact Or.inl h'
    · exact Or.inr (List.mem_singleton.mp h')

/-- Every binding of `dupdate d e` is a binding of `d` or of `e`. -/
theorem mem_dupdate {d e : List (String × Json)} {p : String × Json}
    (h : p ∈ dupdate d e) : p ∈ d ∨ p ∈ e := by
  induction e generalizing d with
  | nil => exact Or.inl h
  | cons x rest ih =>
    have h' : p ∈ dupdate (dset d x.1 x.2) rest := h
    rcases ih h' with h'' | h''
    · rcases mem_dset h'' with h3 | h3
      · exact Or.inl h3
      · exact Or.inr (by rw [h3]; exact List.mem_cons_self _ _)
    · exact Or.inr (List.mem_cons_of_mem _ h'')

/-- A key that `dmem` reports present is in `dkeys`. -/
theorem dmem_mem_dkeys {d : List (String × Json)} {k : String}
    (h : dmem d k = true) : k ∈ dkeys d := by
  induction d with
  | nil => simp [dmem, dget] at h
  | cons x rest ih =>
    by_cases hk : (k == x.1) = true
    · simp only [dkeys, List.map_cons, List.mem_cons]
      exact Or.inl (eq_of_beq hk)
    · have h' : dmem rest k = true := by
        simpa [dmem, dget, List.lookup, hk] using h
      simp only [dkeys, List.map_cons, List.mem_cons]
      exact Or.inr (by simpa [dkeys] using ih h')

/-- A key present in the stored record but absent from the new record makes
`has_data_changed` report a change (union-of-keys policy). -/
theorem changed_of_stored_only_key {new_data old_data : List (String × Json)}
    {k : String} (hnew : dmem new_data k = false) (hold : dmem old_data k = true) :
    has_data_changed new_data (some old_data) = true := by
  unfold has_data_changed
  refine List.any_eq_true.mpr ⟨k, ?_, ?_⟩
  · exact List.mem_dedup.mpr (List.mem_append.mpr (Or.inr (dmem_mem_dkeys hold)))
  · simp [hnew, hold]

mutual

/-- Dispatching one entry of `flatten_json` preserves all-scalar results
when no sequence in the value directly contains a sequence. -/
theorem flattenEntry_scalar (v : Json) (newKey : String)
    (result : List (String × Json)) (hv : jsonNoArrInArr v = true)
    (hres : ∀ p ∈ result, isScalar p.2 = true) :
    ∀ p ∈ flattenEntry v newKey result, isScalar p.2 = true := by
  match v with
  | Json.obj o =>
    intro p hp
    rcases mem_dupdate hp with h | h
    · exact hres p h
    · exact flattenObj_scalar o (newKey ++ "_") [] (by simpa [jsonNoArrInArr] using hv)
        (by intro q hq; cases hq) p h
  | Json.arr items =>
    intro p hp
    exact flattenItems_scalar items newKey 0 result
      (by simpa [jsonNoArrInArr] using hv) hres p hp
  | Json.null =>
    intro p hp
    rcases mem_dset hp with h | h
    · exact hres p h
    · rw [h]; rfl
  | Json.bool b =>
    intro p hp
    rcases mem_dset hp with h | h
    · exact hres p h
    · rw [h]; rfl
  | Json.num q =>
    intro p hp
    rcases mem_dset hp with h | h
    · exact hres p h
    · rw [h]; rfl
  | Json.str s =>
    intro p hp
    rcases mem_dset hp with h | h
    · exact hres p h
    · rw [h]; rfl
termination_by sizeOf v
decreasing_by
  all_goals simp_wf
  all_goals omega

/-- The list loop of `flatten_json` preserves all-scalar results when no
element is a sequence and the condition holds recursively below. -/
theorem flattenItems_scalar (items : List Json) (newKey : String) (i : Nat)
    (result : List (String × Json)) (hv : listNoArrInArr items = true)
    (hres : ∀ p ∈ result, isScalar p.2 = true) :
    ∀ p ∈ flattenItems items newKey i result, isScalar p.2 = true := by
  match items with
  | [] =>
    intro p hp
    exact hres p hp
  | Json.obj o :: rest =>
    unfold listNoArrInArr at hv
    simp only [Bool.and_eq_true] at hv
    intro p hp
    refine flattenItems_scalar rest newKey (i + 1) _ hv.2 ?_ p hp
    intro q hq
    rcases mem_dupdate hq with h | h
    · exact hres q h
    · exact flattenObj_scalar o (newKey ++ "_" ++ toString i ++ "_") []
        (by simpa [jsonNoArrInArr] using hv.1) (by intro r hr; cases hr) q h
  | Json.arr l :: rest =>
    unfold listNoArrInArr at hv
    simp at hv
  | Json.null :: rest =>
    unfold listNoArrInArr at hv
    simp only [Bool.and_eq_true] at hv
    intro p hp
    refine flattenItems_scalar rest newKey (i + 1) _ hv.2 ?_ p hp
    intro q hq
    rcases mem_dset hq with h | h
    · exact hres q h
    · rw [h]; rfl
  | Json.bool b :: rest =>
    unfold listNoArrInArr at hv
    simp only [Bool.and_eq_true] at hv
    intro p hp
    refine flattenItems_scalar rest newKey (i + 1) _ hv.2 ?_ p hp
    intro q hq
    rcases mem_dset hq with h | h
    · exact hres q h
    · rw [h]; rfl
  | Json.num q' :: rest =>
    unfold listNoArrInArr at hv
    simp only [Bool.and_eq_true] at hv
    intro p hp
    refine flattenItems_scalar rest newKey (i + 1) _ hv.2 ?_ p hp
    intro q hq
    rcases mem_dset hq with h | h
    · exact hres q h
    · rw [h]; rfl
  | Json.str s :: rest =>
    unfold listNoArrInArr at hv
    simp only [Bool.and_eq_true] at hv
    intro p hp
    refine flattenItems_scalar rest newKey (i + 1) _ hv.2 ?_ p hp
    intro q hq
    rcases mem_dset hq with h | h
    · exact hres q h
    · rw [h]; rfl
termination_by sizeOf items
decreasing_by
  all_goals simp_wf
  all_goals omega

/-- The entry loop of `flatten_json` preserves all-scalar results when no
sequence in any value directly contains a sequence. -/
theorem flattenObj_scalar (entries : List (String × Json)) (pfx : String)
    (result : List (String × Json)) (hv : objNoArrInArr entries = true)
    (hres : ∀ p ∈ result, isScalar p.2 = true) :
    ∀ p ∈ flattenObj entries pfx result, isScalar p.2 = true := by
  match entries with
  | [] =>
    intro p hp
    exact hres p hp
  | (key, value) :: rest =>
    have hv1 : jsonNoArrInArr value = true := by
      have := hv
      unfold objNoArrInArr at this
      simp only [Bool.and_eq_true] at this
      exact this.1
    have hv2 : objNoArrInArr rest = true := by
      have := hv
      unfold objNoArrInArr at this
      simp only [Bool.and_eq_true] at this
      exact this.2
    intro p hp
    exact flattenObj_scalar rest pfx _ hv2
      (flattenEntry_scalar value _ result hv1 hres) p hp
termination_by sizeOf entries
decreasing_by
  all_goals simp_wf
  all_goals omega

end

/-- A payload returned by the `get_stats` loop always originates from some
attempt within the loop window that produced a fully parsed 200 response. -/
theorem get_stats_go_result_ok (outcomes : Nat → AttemptOutcome) (m : Nat) :
    ∀ (fuel attempt : Nat) (sleeps : List Nat) (p : List (String × Json)),
    (get_stats_go outcomes m fuel attempt sleeps).result = some p →
    ∃ i, attempt ≤ i ∧ i < attempt + fuel ∧ outcomes i = AttemptOutcome.ok p := by
  intro fuel
  induction fuel with
  | zero =>
    intro attempt sleeps p h
    simp [get_stats_go] at h
  | succ n ih =>
    intro attempt sleeps p h
    unfold get_stats_go at h
    cases houts : outcomes attempt with
    | ok payload =>
      rw [houts] at h
      simp at h
      exact ⟨attempt, Nat.le_refl _, by omega, by rw [houts, h]⟩
    | rateLimited ra =>
      rw [houts] at h
      obtain ⟨i, h1, h2, h3⟩ := ih (attempt + 1) _ p h
      exact ⟨i, by omega, by omega, h3⟩
    | httpError st =>
      rw [houts] at h
      obtain ⟨i, h1, h2, h3⟩ := ih (attempt + 1) _ p h
      exact ⟨i, by omega, by omega, h3⟩
    | timeout =>
      rw [houts] at h
      obtain ⟨i, h1, h2, h3⟩ := ih (attempt + 1) _ p h
      exact ⟨i, by omega, by omega, h3⟩
    | exc =>
      rw [houts] at h
      obtain ⟨i, h1, h2, h3⟩ := ih (attempt + 1) _ p h
      exact ⟨i, by omega, by omega, h3⟩

/-- C4: the claim that `flatten` returns only scalar values fails on the
code: a sequence element that is itself a sequence is left intact, so
`flatten_json {"a": [[1]]}` maps `"a_0"` to the inner list, which is not a
scalar. -/
theorem c4_counterexample :
    flatten_json [("a", Json.arr [Json.arr [Json.num 1]])] "" =
      [("a_0", Json.arr [Json.num 1])] ∧
    isScalar (Json.arr [Json.num 1]) = false :=
  ⟨rfl, rfl⟩

/-- C4 (amended): for every JSON object in which no sequence element is
itself a sequence, `flatten_json` returns a single-level mapping whose
values are all scalars (string, number, boolean or null), with nested
objects joined by `_` into the key path and sequence elements indexed as
`prefix_<index>` (illustrated by the closed conjunct). -/
theorem c4_theorem (data : List (String × Json)) (pfx : String)
    (h : objNoArrInArr data = true) :
    (∀ p ∈ flatten_json data pfx, isScalar p.2 = true) ∧
    flatten_json [("a", Json.obj [("b", Json.num 1)]), ("c", Json.arr [Json.num 2, Json.num 3])] ""
      = [("a_b", Json.num 1), ("c_0", Json.num 2), ("c_1", Json.num 3)] := by
  constructor
  · intro p hp
    exact flattenObj_scalar data pfx [] h (by intro q hq; cases hq) p hp
  · rfl

/-- C4 witness: the amended theorem applied to a concrete nested object. -/
theorem c4_witness :
    objNoArrInArr [("a", Json.obj [("b", Json.num 1)]), ("c", Json.arr [Json.num 2, Json.num 3])] = true ∧
    (∀ p ∈ flatten_json [("a", Json.obj [("b", Json.num 1)]), ("c", Json.arr [Json.num 2, Json.num 3])] "",
      isScalar p.2 = true) :=
  ⟨rfl, (c4_theorem [("a", Json.obj [("b", Json.num 1)]), ("c", Json.arr [Json.num 2, Json.num 3])] "" rfl).1⟩

/-- C9: when writing a `player_stats` point, each field passes through
exactly the per-type conversion of `write_player_stats` — bools become
ints, ints/floats become floats, strings stay — and every field of any
other type is silently omitted. -/
theorem c9_theorem (stats : List (String × Json)) :
    point_fields stats = stats.filterMap fieldConvSpec := by
  induction stats with
  | nil => rfl
  | cons kv rest ih =>
    obtain ⟨k, v⟩ := kv
    cases v <;> simp [point_fields, fieldConvSpec, List.filterMap_cons, ih]

/-- C5: with `max_retries = 3` and every attempt failing with a transport
error (timeout or raised exception), `get_stats` issues exactly 3 attempts
and returns `None`; and any payload it ever returns comes from an attempt
that produced a fully parsed HTTP 200 response. -/
theorem c5_theorem (outcomes : Nat → AttemptOutcome)
    (h : ∀ i, i < 3 → outcomes i = AttemptOutcome.timeout ∨ outcomes i = AttemptOutcome.exc) :
    (get_stats outcomes 3).result = none ∧ (get_stats outcomes 3).attempts = 3 ∧
    (∀ (outs : Nat → AttemptOutcome) (p : List (String × Json)),
      (get_stats outs 3).result = some p → ∃ i, i < 3 ∧ outs i = AttemptOutcome.ok p) := by
  refine ⟨?_, ?_, ?_⟩
  · rcases h 0 (by omega) with h0 | h0 <;> rcases h 1 (by omega) with h1 | h1 <;>
      rcases h 2 (by omega) with h2 | h2 <;>
      simp [get_stats, get_stats_go, h0, h1, h2]
  · rcases h 0 (by omega) with h0 | h0 <;> rcases h 1 (by omega) with h1 | h1 <;>
      rcases h 2 (by omega) with h2 | h2 <;>
      simp [get_stats, get_stats_go, h0, h1, h2]
  · intro outs p hp
    obtain ⟨i, h1, h2, h3⟩ := get_stats_go_result_ok outs 3 3 0 [] p hp
    exact ⟨i, by omega, h3⟩

/-- C5 witness: the theorem applied to the always-timeout network. -/
theorem c5_witness :
    (get_stats (fun _ => AttemptOutcome.timeout) 3).result = none ∧
    (get_stats (fun _ => AttemptOutcome.timeout) 3).attempts = 3 :=
  ⟨(c5_theorem (fun _ => AttemptOutcome.timeout) (fun i _ => Or.inl rfl)).1,
   (c5_theorem (fun _ => AttemptOutcome.timeout) (fun i _ => Or.inl rfl)).2.1⟩

/-- C3: the claim that a 429 leads only to the Retry-After wait before the
next attempt fails on the code: after sleeping `Retry-After: 5` the loop
additionally sleeps the exponential backoff `2 ** 0 = 1`, so the recorded
sleeps are `[5, 1]`, not `[5]`. -/
theorem c3_counterexample :
    get_stats (fun i => if i == 0 then AttemptOutcome.rateLimited (some 5)
      else AttemptOutcome.ok [("level", Json.num 50)]) 3 =
      ⟨some [("level", Json.num 50)], 2, [5, 1]⟩ ∧
    ([5, 1] : List Nat) ≠ [5] :=
  ⟨rfl, by decide⟩

/-- C3 (amended): on a 429 the fetcher sleeps the Retry-After duration
(default 60 when the response has none), then — because the 429 consumes
one attempt of the `max_retries` budget like any non-200 outcome — also
sleeps the normal exponential backoff `2 ** attempt` before the next
attempt; if that next attempt returns 200 the parsed payload is returned
and the budget is not exhausted. -/
theorem c3_theorem (outcomes : Nat → AttemptOutcome) (w : Nat) (p : List (String × Json))
    (h0 : outcomes 0 = AttemptOutcome.rateLimited (some w))
    (h1 : outcomes 1 = AttemptOutcome.ok p) :
    get_stats outcomes 3 = ⟨some p, 2, [w, 1]⟩ ∧
    (∀ (outs : Nat → AttemptOutcome) (q : List (String × Json)),
      outs 0 = AttemptOutcome.rateLimited none → outs 1 = AttemptOutcome.ok q →
      get_stats outs 3 = ⟨some q, 2, [60, 1]⟩) := by
  constructor
  · simp [get_stats, get_stats_go, h0, h1]
  · intro outs q g0 g1
    simp [get_stats, get_stats_go, g0, g1]

/-- C3 witness: the amended theorem applied to a 429-with-Retry-After-5
network whose second attempt succeeds. -/
theorem c3_witness :
    get_stats (fun i => if i == 0 then AttemptOutcome.rateLimited (some 5)
      else AttemptOutcome.ok [("kills", Json.num 7)]) 3 =
      ⟨some [("kills", Json.num 7)], 2, [5, 1]⟩ :=
  (c3_theorem (fun i => if i == 0 then AttemptOutcome.rateLimited (some 5)
      else AttemptOutcome.ok [("kills", Json.num 7)]) 5 [("kills", Json.num 7)] rfl rfl).1

/-- C6: on a 200 account-lookup response `get_account_id` checks exactly
the three shapes in priority order — `account_id` at the root, `account_id`
inside a (truthy) `result` object, then `id` inside an `account` object —
returning the first hit; a non-200 status yields `None`, and when none of
the three shapes matches the result is exactly what the third (last)
extractor yields, i.e. `None`. -/
theorem c6_theorem (status : Nat) (data : List (String × Json)) :
    (status ≠ 200 → get_account_id status data = none) ∧
    (∀ v, accountShapeRoot data = some v → get_account_id 200 data = some v) ∧
    (accountShapeRoot data = none →
      ∀ v, accountShapeResult data = some v → get_account_id 200 data = some v) ∧
    (accountShapeRoot data = none → accountShapeResult data = none →
      get_account_id 200 data = accountShapeAccount data) := by
  have eResult : (match dget data "result" with
      | some rv =>
        if pyTruthy rv then
          match rv with
          | Json.obj ro => dget ro "account_id"
          | _ => none
        else none
      | none => none) = accountShapeResult data := rfl
  refine ⟨?_, ?_, ?_, ?_⟩
  · intro h
    simp [get_account_id, h]
  · intro v hv
    unfold accountShapeRoot at hv
    simp [get_account_id, hv]
  · intro h1 v h2
    unfold accountShapeRoot at h1
    simp only [get_account_id, beq_self_eq_true, if_true, h1]
    rw [eResult, h2]
  · intro h1 h2
    unfold accountShapeRoot at h1
    simp only [get_account_id, beq_self_eq_true, if_true, h1]
    rw [eResult, h2]
    rfl

/-- C6 witness: the theorem applied to concrete responses exercising a
non-200 status, a root hit, a `result` hit and an `account` hit. -/
theorem c6_witness :
    get_account_id 404 [("account_id", Json.str "abc")] = none ∧
    get_account_id 200 [("account_id", Json.str "abc")] = some (Json.str "abc") ∧
    get_account_id 200 [("result", Json.obj [("account_id", Json.str "r")]),
      ("account", Json.obj [("id", Json.str "x")])] = some (Json.str "r") ∧
    get_account_id 200 [("account", Json.obj [("id", Json.str "x")])] = some (Json.str "x") :=
  ⟨(c6_theorem 404 [("account_id", Json.str "abc")]).1 (by decide),
   (c6_theorem 200 [("account_id", Json.str "abc")]).2.1 (Json.str "abc") rfl,
   (c6_theorem 200 [("result", Json.obj [("account_id", Json.str "r")]),
      ("account", Json.obj [("id", Json.str "x")])]).2.2.1 rfl (Json.str "r") rfl,
   by
    rw [(c6_theorem 200 [("account", Json.obj [("id", Json.str "x")])]).2.2.2 rfl rfl]
    rfl⟩

/-- C1: the union-policy claim fails on the player path: with a stored
snapshot carrying the extra key `old_field` (absent from the new flat
record) and all shared keys equal, `_sync_player` filters the stored
record to the new record's keys first, the comparison sees no difference,
and the outcome is `unchanged` — no `player_stats` point is written. -/
theorem c1_counterexample :
    sync_player
      { player := "p", storedAccountId := some "acc", apiAccountId := none,
        statsResult := some [("level", Json.num 1)],
        stored := some [("level", Json.num 1), ("player", Json.str "p"),
          ("account_id", Json.str "acc"), ("old_field", Json.num 7)],
        writeFails := false } = Except.ok SyncOutcome.unchanged ∧
    dmem [("level", Json.num 1), ("player", Json.str "p"),
      ("account_id", Json.str "acc"), ("old_field", Json.num 7)] "old_field" = true ∧
    dmem (player_flat "p" "acc" [("level", Json.num 1)]) "old_field" = false :=
  ⟨rfl, rfl, rfl⟩

/-- C1 (amended): player change detection is intersection-based, not
union-based: `_sync_player` restricts the stored snapshot to the keys of
the new flat record before comparing, so whenever that filtered comparison
reports no change the player is left `unchanged` — keys present only in
the stored snapshot can never trigger a write. -/
theorem c1_theorem (e : PlayerEnv) (a : String) (stats st : List (String × Json))
    (hacc : e.storedAccountId = some a) (ha : (a == "") = false)
    (hst : e.statsResult = some stats) (hne : stats.isEmpty = false)
    (herr : is_api_error (player_flat e.player a stats) = false)
    (hstored : e.stored = some st) (hstne : st.isEmpty = false)
    (hcmp : has_data_changed (player_flat e.player a stats)
      (some (st.filter (fun p => dmem (player_flat e.player a stats) p.1))) = false) :
    sync_player e = Except.ok SyncOutcome.unchanged := by
  unfold sync_player
  rw [show resolve_account e.storedAccountId e.apiAccountId = some a by
    simp [resolve_account, optStrTruthy, hacc, ha]]
  rw [hst]
  simp only [hne, Bool.false_eq_true, if_false, herr, if_neg]
  rw [show player_write_needed (player_flat e.player a stats) e.stored = false by
    rw [hstored]
    simp only [player_write_needed, hstne, Bool.false_eq_true, if_false, hcmp]]
  simp

/-- C1 witness: the amended theorem applied to a player whose stored
snapshot has an extra key and otherwise equal values. -/
theorem c1_witness :
    sync_player
      { player := "q", storedAccountId := some "acc2", apiAccountId := none,
        statsResult := some [("wins", Json.num 3)],
        stored := some [("wins", Json.num 3), ("player", Json.str "q"),
          ("account_id", Json.str "acc2"), ("retired_field", Json.str "gone")],
        writeFails := false } = Except.ok SyncOutcome.unchanged :=
  c1_theorem
    { player := "q", storedAccountId := some "acc2", apiAccountId := none,
      statsResult := some [("wins", Json.num 3)],
      stored := some [("wins", Json.num 3), ("player", Json.str "q"),
        ("account_id", Json.str "acc2"), ("retired_field", Json.str "gone")],
      writeFails := false }
    "acc2" [("wins", Json.num 3)]
    [("wins", Json.num 3), ("player", Json.str "q"),
      ("account_id", Json.str "acc2"), ("retired_field", Json.str "gone")]
    rfl rfl rfl rfl rfl rfl rfl rfl

/-- C7: when the flattened stats carry the sentinel error field — `error`
reading "UNKNOWN" case-insensitively, directly or in the tagged
`_field`/`_value` form — `_sync_player` returns before the store is
touched: the outcome is `apiError`, so no point is written and the record
is not reported `unchanged`. -/
theorem c7_theorem (e : PlayerEnv) (a : String) (stats : List (String × Json))
    (hacc : e.storedAccountId = some a) (ha : (a == "") = false)
    (hst : e.statsResult = some stats) (hne : stats.isEmpty = false)
    (hsent :
      (∃ s, dget (player_flat e.player a stats) "error" = some (Json.str s) ∧
        pyUpper s = "UNKNOWN") ∨
      (dget (player_flat e.player a stats) "_field" = some (Json.str "error") ∧
        ∃ t, dget (player_flat e.player a stats) "_value" = some (Json.str t) ∧
          pyUpper t = "UNKNOWN")) :
    sync_player e = Except.ok SyncOutcome.apiError := by
  have herr : is_api_error (player_flat e.player a stats) = true := by
    rcases hsent with ⟨s, hs, hup⟩ | ⟨hf, t, htv, hup⟩
    · unfold is_api_error errorFieldUnknown
      rw [show getD (player_flat e.player a stats) "error" (Json.str "") = Json.str s by
        simp [getD, hs]]
      simp [hup]
    · unfold is_api_error
      rw [hf]
      rw [show getD (player_flat e.player a stats) "_value" (Json.str "") = Json.str t by
        simp [getD, htv]]
      simp [pyStr, hup]
  unfold sync_player
  rw [show resolve_account e.storedAccountId e.apiAccountId = some a by
    simp [resolve_account, optStrTruthy, hacc, ha]]
  rw [hst]
  simp only [hne, Bool.false_eq_true, if_false, herr, if_true]

/-- C7 witness: the theorem applied to a stats payload `{error: "Unknown"}`
(mixed case), checked for both sentinel forms on the respective inputs. -/
theorem c7_witness :
    sync_player
      { player := "p", storedAccountId := some "acc", apiAccountId := none,
        statsResult := some [("error", Json.str "Unknown")],
        stored := none, writeFails := false } = Except.ok SyncOutcome.apiError ∧
    sync_player
      { player := "p2", storedAccountId := some "acc", apiAccountId := none,
        statsResult := some [("_field", Json.str "error"), ("_value", Json.str "unknown")],
        stored := none, writeFails := false } = Except.ok SyncOutcome.apiError :=
  ⟨c7_theorem
    { player := "p", storedAccountId := some "acc", apiAccountId := none,
      statsResult := some [("error", Json.str "Unknown")],
      stored := none, writeFails := false }
    "acc" [("error", Json.str "Unknown")] rfl rfl rfl rfl
    (Or.inl ⟨"Unknown", rfl, rfl⟩),
   c7_theorem
    { player := "p2", storedAccountId := some "acc", apiAccountId := none,
      statsResult := some [("_field", Json.str "error"), ("_value", Json.str "unknown")],
      stored := none, writeFails := false }
    "acc" [("_field", Json.str "error"), ("_value", Json.str "unknown")] rfl rfl rfl rfl
    (Or.inr ⟨rfl, "unknown", rfl, rfl⟩)⟩

/-- C8: a failed store query degrades to always-write: `_query_to_dict`
turns the raised error into `None`, `has_data_changed` reports changed for
a `None` snapshot, and `_sync_player` proceeds to write the point instead
of aborting the entity or the run. -/
theorem c8_theorem (u : Unit) (new_data : List (String × Json))
    (e : PlayerEnv) (a : String) (stats : List (String × Json))
    (hacc : e.storedAccountId = some a) (ha : (a == "") = false)
    (hst : e.statsResult = some stats) (hne : stats.isEmpty = false)
    (herr : is_api_error (player_flat e.player a stats) = false)
    (hstored : e.stored = query_to_dict (Except.error u))
    (hwf : e.writeFails = false) :
    query_to_dict (Except.error u) = none ∧
    has_data_changed new_data none = true ∧
    sync_player e = Except.ok (SyncOutcome.written (player_flat e.player a stats)) := by
  refine ⟨rfl, rfl, ?_⟩
  unfold sync_player
  rw [show resolve_account e.storedAccountId e.apiAccountId = some a by
    simp [resolve_account, optStrTruthy, hacc, ha]]
  rw [hst]
  simp only [hne, Bool.false_eq_true, if_false, herr, if_neg]
  rw [show player_write_needed (player_flat e.player a stats) e.stored = true by
    rw [hstored]; rfl]
  simp [hwf]

/-- C8 witness: the theorem applied to a player whose prior-state query
raised. -/
theorem c8_witness :
    query_to_dict (Except.error ()) = none ∧
    has_data_changed [("level", Json.num 9)] none = true ∧
    sync_player
      { player := "r", storedAccountId := some "acc3", apiAccountId := none,
        statsResult := some [("level", Json.num 9)],
        stored := query_to_dict (Except.error ()), writeFails := false } =
      Except.ok (SyncOutcome.written (player_flat "r" "acc3" [("level", Json.num 9)])) :=
  c8_theorem () [("level", Json.num 9)]
    { player := "r", storedAccountId := some "acc3", apiAccountId := none,
      statsResult := some [("level", Json.num 9)],
      stored := query_to_dict (Except.error ()), writeFails := false }
    "acc3" [("level", Json.num 9)] rfl rfl rfl rfl rfl rfl rfl

/-- C10: season sync compares the new record against the full stored
snapshot, so a stored-only key (with all shared fields equal or not)
forces a write; the player path filters the stored snapshot to the new
record's keys first, so the analogous stored-only key leaves the player
`unchanged`. -/
theorem c10_theorem (se : SeasonEnv) (sid : Json) (sst : List (String × Json)) (k : String)
    (pe : PlayerEnv) (a : String) (pstats pst : List (String × Json)) (k2 : String)
    (h1 : dget se.season "season" = some sid) (h2 : pyTruthy sid = true)
    (h3 : se.stored = some sst) (h4 : dmem sst k = true)
    (h5 : dmem (season_fields se.season) k = false) (h6 : se.writeFails = false)
    (p1 : pe.storedAccountId = some a) (p2 : (a == "") = false)
    (p3 : pe.statsResult = some pstats) (p4 : pstats.isEmpty = false)
    (p5 : is_api_error (player_flat pe.player a pstats) = false)
    (p6 : pe.stored = some pst) (p7 : pst.isEmpty = false)
    (p8 : dmem pst k2 = true)
    (p9 : dmem (player_flat pe.player a pstats) k2 = false)
    (p10 : has_data_changed (player_flat pe.player a pstats)
      (some (pst.filter (fun q => dmem (player_flat pe.player a pstats) q.1))) = false) :
    sync_season se = Except.ok (SeasonOutcome.written (season_fields se.season)) ∧
    sync_player pe = Except.ok SyncOutcome.unchanged := by
  constructor
  · unfold sync_season
    rw [h1]
    simp only [h2, if_true]
    rw [h3, changed_of_stored_only_key h5 h4]
    simp [h6]
  · unfold sync_player
    rw [show resolve_account pe.storedAccountId pe.apiAccountId = some a by
      simp [resolve_account, optStrTruthy, p1, p2]]
    rw [p3]
    simp only [p4, Bool.false_eq_true, if_false, p5, if_neg]
    rw [show player_write_needed (player_flat pe.player a pstats) pe.stored = false by
      rw [p6]
      simp only [player_write_needed, p7, Bool.false_eq_true, if_false, p10]]
    simp

/-- C10 witness: a season whose stored snapshot has a stale `end` field is
rewritten, while a player whose stored snapshot has an analogous extra key
is left unchanged. -/
theorem c10_witness :
    sync_season
      { season := [("season", Json.num 31), ("startDate", Json.str "2024-01-01")],
        stored := some [("start", Json.str "2024-01-01"), ("end", Json.str "2024-06-01")],
        writeFails := false } =
      Except.ok (SeasonOutcome.written [("start", Json.str "2024-01-01")]) ∧
    sync_player
      { player := "s", storedAccountId := some "acc4", apiAccountId := none,
        statsResult := some [("score", Json.num 12)],
        stored := some [("score", Json.num 12), ("player", Json.str "s"),
          ("account_id", Json.str "acc4"), ("end", Json.str "2024-06-01")],
        writeFails := false } = Except.ok SyncOutcome.unchanged := by
  have h := c10_theorem
    { season := [("season", Json.num 31), ("startDate", Json.str "2024-01-01")],
      stored := some [("start", Json.str "2024-01-01"), ("end", Json.str "2024-06-01")],
      writeFails := false }
    (Json.num 31)
    [("start", Json.str "2024-01-01"), ("end", Json.str "2024-06-01")] "end"
    { player := "s", storedAccountId := some "acc4", apiAccountId := none,
      statsResult := some [("score", Json.num 12)],
      stored := some [("score", Json.num 12), ("player", Json.str "s"),
        ("account_id", Json.str "acc4"), ("end", Json.str "2024-06-01")],
      writeFails := false }
    "acc4" [("score", Json.num 12)]
    [("score", Json.num 12), ("player", Json.str "s"),
      ("account_id", Json.str "acc4"), ("end", Json.str "2024-06-01")] "end"
    rfl rfl rfl rfl rfl rfl rfl rfl rfl rfl rfl rfl rfl rfl rfl rfl
  exact h

/-- C2: the isolation claim fails on the code: when the first player's
store write raises, `sync_players` aborts with no outcome recorded for the
second player — even though processing that player alone would have
succeeded with a write. -/
theorem c2_counterexample :
    sync_players
      [ { player := "p1", storedAccountId := some "a1", apiAccountId := none,
          statsResult := some [("level", Json.num 1)], stored := none, writeFails := true },
        { player := "p2", storedAccountId := some "a2", apiAccountId := none,
          statsResult := some [("level", Json.num 2)], stored := none, writeFails := false } ]
      = ([], true) ∧
    sync_player
      { player := "p2", storedAccountId := some "a2", apiAccountId := none,
        statsResult := some [("level", Json.num 2)], stored := none, writeFails := false }
      = Except.ok (SyncOutcome.written [("level", Json.num 2), ("player", Json.str "p2"),
          ("account_id", Json.str "a2")]) :=
  ⟨rfl, rfl⟩

/-- C2 (amended): a store write failure is not contained to the failing
entity: the exception propagates out of the player loop, so the run
records outcomes only for the players before the failing one, the players
after it are never processed, and the whole run ends aborted. -/
theorem c2_theorem (pre : List PlayerEnv) (e : PlayerEnv) (rest : List PlayerEnv)
    (hpre : ∀ x ∈ pre, ∃ o, sync_player x = Except.ok o)
    (he : sync_player e = Except.error ()) :
    (sync_players (pre ++ e :: rest)).2 = true ∧
    (sync_players (pre ++ e :: rest)).1.length = pre.length ∧
    (∀ seasons, (run seasons (pre ++ e :: rest)).aborted = true) := by
  have key : (sync_players (pre ++ e :: rest)).2 = true ∧
      (sync_players (pre ++ e :: rest)).1.length = pre.length := by
    induction pre with
    | nil =>
      simp only [List.nil_append]
      unfold sync_players
      rw [he]
      exact ⟨rfl, rfl⟩
    | cons x pre' ih =>
      obtain ⟨o, ho⟩ := hpre x (List.mem_cons_self _ _)
      have ih' := ih (fun y hy => hpre y (List.mem_cons_of_mem _ hy))
      simp only [List.cons_append]
      unfold sync_players
      rw [ho]
      simpa using ih'
  refine ⟨key.1, key.2, ?_⟩
  intro seasons
  unfold run
  by_cases hs : (sync_seasons seasons).2 = true
  · simp [hs]
  · simp [hs, key.1]

/-- C2 witness: the amended theorem applied to a two-player run whose
first player's write raises. -/
theorem c2_witness :
    (sync_players
      [ { player := "w1", storedAccountId := some "b1", apiAccountId := none,
          statsResult := some [("kills", Json.num 4)], stored := none, writeFails := true },
        { player := "w2", storedAccountId := some "b2", apiAccountId := none,
          statsResult := some [("kills", Json.num 5)], stored := none, writeFails := false } ]).2
      = true ∧
    (sync_players
      [ { player := "w1", storedAccountId := some "b1", apiAccountId := none,
          statsResult := some [("kills", Json.num 4)], stored := none, writeFails := true },
        { player := "w2", storedAccountId := some "b2", apiAccountId := none,
          statsResult := some [("kills", Json.num 5)], stored := none, writeFails := false } ]).1.length
      = 0 :=
  ⟨(c2_theorem []
      { player := "w1", storedAccountId := some "b1", apiAccountId := none,
        statsResult := some [("kills", Json.num 4)], stored := none, writeFails := true }
      [ { player := "w2", storedAccountId := some "b2", apiAccountId := none,
          statsResult := some [("kills", Json.num 5)], stored := none, writeFails := false } ]
      (by intro x hx; cases hx) rfl).1,
   (c2_theorem []
      { player := "w1", storedAccountId := some "b1", apiAccountId := none,
        statsResult := some [("kills", Json.num 4)], stored := none, writeFails := true }
      [ { player := "w2", storedAccountId := some "b2", apiAccountId := none,
          statsResult := some [("kills", Json.num 5)], stored := none, writeFails := false } ]
      (by intro x hx; cases hx) rfl).2.1⟩
